import Mathlib

/-!
Verification development for `ra-dns-check.py` (RIPE Atlas DNS measurement
comparison tool).  The Python source is shallowly embedded below: pure
fragments become Lean functions, the per-result ingestion loop becomes a fold
over an explicit state record, dictionaries become association lists, and
Python exceptions become `Option`/`Except` values.  Python strings are modelled
as Lean `String`s, with character-level helpers (defined structurally over
`String.data`) standing in for Python's `str.split`, `str.__le__`, and the
`re` idioms the script uses, so that every definition evaluates inside the
kernel.  Response times (Python floats) are modelled as rationals.
-/

namespace RaDns

/-! ### Character/string helpers (Python string semantics) -/

/-- Python string `<=` (code-point lexicographic) on the underlying
character lists. -/
def lexLe : List Char → List Char → Bool
  | [], _ => true
  | _ :: _, [] => false
  | a :: as, b :: bs => if a = b then lexLe as bs else decide (a < b)

/-- Python string `<=` as a relation on `String`. -/
def pyStrLe (a b : String) : Prop := lexLe a.data b.data = true

instance : DecidableRel pyStrLe := fun a b =>
  inferInstanceAs (Decidable (lexLe a.data b.data = true))

/-- If `sep` is a prefix of `s`, strip it and return the remainder. -/
def dropPre : List Char → List Char → Option (List Char)
  | [], s => some s
  | _ :: _, [] => none
  | p :: ps, c :: cs => if p = c then dropPre ps cs else none

/-- Fuelled worker for Python `str.split(sep)` (non-empty separator); the
fuel is an upper bound on the number of characters left to scan. -/
def pySplitAux (sep : List Char) : Nat → List Char → List Char → List (List Char)
  | _, acc, [] => [acc.reverse]
  | 0, acc, rest => [acc.reverse ++ rest]
  | fuel + 1, acc, c :: cs =>
    match dropPre sep (c :: cs) with
    | some rest => acc.reverse :: pySplitAux sep fuel [] rest
    | none => pySplitAux sep fuel (c :: acc) cs

/-- Python `s.split(sep)` for a non-empty separator `sep`. -/
def pySplit (sep s : String) : List String :=
  (pySplitAux sep.data s.data.length [] s.data).map String.mk

/-- Python list indexing `l[i]` (negative indices count from the end);
`none` models an `IndexError`. -/
def pyListIndex (l : List String) (i : Int) : Option String :=
  if 0 ≤ i then l.get? i.toNat
  else if (-i).toNat ≤ l.length then l.get? (l.length - (-i).toNat)
  else none

/-- Case-insensitive ASCII character comparison, as `re.IGNORECASE` treats
letters: equal, or the same letter in the other case. -/
def ciCharEq (p c : Char) : Bool :=
  p = c || (p.isLower && c.toNat + 32 = p.toNat) || (p.isUpper && p.toNat + 32 = c.toNat)

/-- Model of `re.match(pat, s, re.IGNORECASE)` for a pattern that is a plain
literal: case-insensitive prefix test. -/
def ciStartsWith : List Char → List Char → Bool
  | [], _ => true
  | _ :: _, [] => false
  | p :: ps, c :: cs => ciCharEq p c && ciStartsWith ps cs

/-- Model of `re.match(r'.*:.*', s)`: since `.` does not match a newline and
`re.match` anchors at the start, the pattern matches exactly when the first
line of `s` contains a colon. -/
def first_line_has_colon (s : String) : Bool :=
  (s.data.takeWhile (fun c => c ≠ '\n')).contains ':'

/-- Association-list lookup, modelling Python `dict[k]` /
`k in dict.keys()`. -/
def dictFind {β : Type} : List (String × β) → String → Option β
  | [], _ => none
  | (a, v) :: rest, k => if k = a then some v else dictFind rest k

/-! ### Time Normalizer (`is_valid_unixtime`, `user_datetime_to_valid_unixtime`)

`is_valid_unixtime` receives either a Python `int` (a candidate epoch computed
by `time.mktime`) or the raw `str` the user supplied on the command line;
`PyTimeVal` records that distinction because the function's first test is
`isinstance(_possible_unixtime, int)`. -/

inductive PyTimeVal
  | int (n : Int)
  | str (s : String)

/-- Line 392-397: `isinstance(x, int) and int(x) < current_unixtime and
int(x) >= oldest_result_unixtime`.  For a `str` argument the `isinstance`
conjunct short-circuits the whole condition to `False`. -/
def is_valid_unixtime (oldest_result_unixtime current_unixtime : Int) :
    PyTimeVal → Bool
  | .int n => decide (n < current_unixtime) && decide (oldest_result_unixtime ≤ n)
  | .str _ => false

/-- The five `time.struct_time` fields the accepted formats can set
(`strptime` defaults: year 1900, month 1, day 1, hour 0, minute 0). -/
structure StrptimeFields where
  year : Nat
  month : Nat
  day : Nat
  hour : Nat
  minute : Nat
deriving DecidableEq

/-- One directive of a `strptime` format string. -/
inductive FormatDirective
  | year4
  | month2
  | day2
  | hour2
  | minute2
  | lit (c : Char)
deriving DecidableEq

def charDigit (c : Char) : Option Nat :=
  if c.isDigit then some (c.toNat - '0'.toNat) else none

/-- CPython `_strptime` regex for `%Y`: exactly four digits. -/
def matchYear : List Char → Option (Nat × List Char)
  | a :: b :: c :: d :: rest =>
    match charDigit a, charDigit b, charDigit c, charDigit d with
    | some w, some x, some y, some z => some (((w * 10 + x) * 10 + y) * 10 + z, rest)
    | _, _, _, _ => none
  | _ => none

def digitVal (c : Char) : Nat := c.toNat - '0'.toNat

/-- CPython regex for `%m`: `1[0-2]|0[1-9]|[1-9]`, alternatives in
preference order (each entry is one backtracking choice). -/
def matchMonth : List Char → List (Nat × List Char)
  | [] => []
  | [a] => if a.isDigit ∧ a ≠ '0' then [(digitVal a, [])] else []
  | a :: b :: rest =>
    (if a = '1' ∧ (b = '0' ∨ b = '1' ∨ b = '2') then [(10 + digitVal b, rest)] else []) ++
    (if a = '0' ∧ b.isDigit ∧ b ≠ '0' then [(digitVal b, rest)] else []) ++
    (if a.isDigit ∧ a ≠ '0' then [(digitVal a, b :: rest)] else [])

/-- CPython regex for `%d`: `3[01]|[12]\d|0[1-9]|[1-9]`. -/
def matchDay : List Char → List (Nat × List Char)
  | [] => []
  | [a] => if a.isDigit ∧ a ≠ '0' then [(digitVal a, [])] else []
  | a :: b :: rest =>
    (if a = '3' ∧ (b = '0' ∨ b = '1') then [(30 + digitVal b, rest)] else []) ++
    (if (a = '1' ∨ a = '2') ∧ b.isDigit then [(digitVal a * 10 + digitVal b, rest)] else []) ++
    (if a = '0' ∧ b.isDigit ∧ b ≠ '0' then [(digitVal b, rest)] else []) ++
    (if a.isDigit ∧ a ≠ '0' then [(digitVal a, b :: rest)] else [])

/-- CPython regex for `%H`: `2[0-3]|[0-1]\d|\d`. -/
def matchHour : List Char → List (Nat × List Char)
  | [] => []
  | [a] => if a.isDigit then [(digitVal a, [])] else []
  | a :: b :: rest =>
    (if a = '2' ∧ (b = '0' ∨ b = '1' ∨ b = '2' ∨ b = '3') then [(20 + digitVal b, rest)] else []) ++
    (if (a = '0' ∨ a = '1') ∧ b.isDigit then [(digitVal a * 10 + digitVal b, rest)] else []) ++
    (if a.isDigit then [(digitVal a, b :: rest)] else [])

/-- CPython regex for `%M`: `[0-5]\d|\d`. -/
def matchMinute : List Char → List (Nat × List Char)
  | [] => []
  | [a] => if a.isDigit then [(digitVal a, [])] else []
  | a :: b :: rest =>
    (if (a.isDigit ∧ digitVal a ≤ 5) ∧ b.isDigit then [(digitVal a * 10 + digitVal b, rest)] else []) ++
    (if a.isDigit then [(digitVal a, b :: rest)] else [])

/-- Match one directive, returning every backtracking alternative in
regex preference order. -/
def matchDirective : FormatDirective → StrptimeFields → List Char →
    List (StrptimeFields × List Char)
  | .year4, f, cs =>
    match matchYear cs with
    | some (v, rest) => [({ f with year := v }, rest)]
    | none => []
  | .month2, f, cs => (matchMonth cs).map (fun p => ({ f with month := p.1 }, p.2))
  | .day2, f, cs => (matchDay cs).map (fun p => ({ f with day := p.1 }, p.2))
  | .hour2, f, cs => (matchHour cs).map (fun p => ({ f with hour := p.1 }, p.2))
  | .minute2, f, cs => (matchMinute cs).map (fun p => ({ f with minute := p.1 }, p.2))
  | .lit c, f, cs =>
    match cs with
    | d :: rest => if d = c then [(f, rest)] else []
    | [] => []

/-- Match a whole format, alternatives in backtracking preference order. -/
def matchFormat : List FormatDirective → StrptimeFields → List Char →
    List (StrptimeFields × List Char)
  | [], f, cs => [(f, cs)]
  | t :: ts, f, cs => (matchDirective t f cs).flatMap (fun p => matchFormat ts p.1 p.2)

/-- `time.strptime(s, fmt)`: the regex engine returns the first match in
preference order; `_strptime` then rejects it unless the whole string was
consumed ("unconverted data remains"). -/
def strptimeMatch (fmt : List FormatDirective) (s : String) : Option StrptimeFields :=
  match matchFormat fmt ⟨1900, 1, 1, 0, 0⟩ s.data with
  | [] => none
  | (f, rest) :: _ => if rest = [] then some f else none

/-- The `accepted_datetime_formats` list of `user_datetime_to_valid_unixtime`
(lines 402-407), in source order: `%Y%m%d`, `%Y%m%d%H%M`, `%Y%m%d_%H%M`,
`%Y%m%d_%H:%M`, `%Y%m%d.%H%M`, `%Y%m%d.%H:%M`, `%Y%m%d %H%M`, `%Y%m%d %H:%M`,
`%Y-%m-%d_%H%M`, `%Y-%m-%d_%H:%M`, `%Y-%m-%d-%H%M`, `%Y-%m-%d-%H:%M`. -/
def accepted_datetime_formats : List (List FormatDirective) :=
  [ [.year4, .month2, .day2],
    [.year4, .month2, .day2, .hour2, .minute2],
    [.year4, .month2, .day2, .lit '_', .hour2, .minute2],
    [.year4, .month2, .day2, .lit '_', .hour2, .lit ':', .minute2],
    [.year4, .month2, .day2, .lit '.', .hour2, .minute2],
    [.year4, .month2, .day2, .lit '.', .hour2, .lit ':', .minute2],
    [.year4, .month2, .day2, .lit ' ', .hour2, .minute2],
    [.year4, .month2, .day2, .lit ' ', .hour2, .lit ':', .minute2],
    [.year4, .lit '-', .month2, .lit '-', .day2, .lit '_', .hour2, .minute2],
    [.year4, .lit '-', .month2, .lit '-', .day2, .lit '_', .hour2, .lit ':', .minute2],
    [.year4, .lit '-', .month2, .lit '-', .day2, .lit '-', .hour2, .minute2],
    [.year4, .lit '-', .month2, .lit '-', .day2, .lit '-', .hour2, .lit ':', .minute2] ]

/-- The `for f in accepted_datetime_formats` loop: on a parse failure
(`ValueError`) try the next format; on a parse whose `mktime` value is not a
valid unixtime, also fall through to the next format; exhausting the list is
`exit(2)`, modelled as `.error ()`. -/
def tryDatetimeFormats (oldest_result_unixtime current_unixtime : Int)
    (mktime : StrptimeFields → Int) (s : String) :
    List (List FormatDirective) → Except Unit Int
  | [] => .error ()
  | f :: fs =>
    match strptimeMatch f s with
    | none => tryDatetimeFormats oldest_result_unixtime current_unixtime mktime s fs
    | some fields =>
      let cand := mktime fields
      if is_valid_unixtime oldest_result_unixtime current_unixtime (.int cand) then .ok cand
      else tryDatetimeFormats oldest_result_unixtime current_unixtime mktime s fs

/-- Lines 401-425.  `mktime` (the composition `int(time.mktime(...))` of the
source, a calendar computation in the C library) is passed in as an oracle;
the function's branching around it is embedded exactly: first the
`is_valid_unixtime(user_dt_string)` fast path on the raw string, then the
format loop, then `exit(2)` (`.error ()`). -/
def user_datetime_to_valid_unixtime (oldest_result_unixtime current_unixtime : Int)
    (mktime : StrptimeFields → Int) (user_dt_string : String) : Except Unit Int :=
  if is_valid_unixtime oldest_result_unixtime current_unixtime (.str user_dt_string) then
    .ok ((user_dt_string.toInt?).getD 0)
  else
    tryDatetimeFormats oldest_result_unixtime current_unixtime mktime
      user_dt_string accepted_datetime_formats

/-! ### Result Ingestor (`process_request`, lines 561-739)

One decoded RIPE Atlas DNS result (`ripe.atlas.sagan.DnsResult`): probe and
measurement identifiers, creation timestamp, malformation/error flags, and the
list of sub-responses, each carrying a response time and an optional answer
buffer (`abuf`) holding answer records with data items.  Response times are
floats in the source, modelled as rationals. -/

structure DnsAnswer where
  data : List String
deriving DecidableEq

structure Abuf where
  is_malformed : Bool
  answers : List DnsAnswer
deriving DecidableEq

structure SubResponse where
  response_time : ℚ
  abuf : Option Abuf
deriving DecidableEq

structure RawResult where
  probe_id : Nat
  measurement_id : Nat
  created_timestamp : Int
  is_malformed : Bool
  is_error : Bool
  responses : List SubResponse
deriving DecidableEq

/-- The configuration values `process_request` reads from `args[0]`. -/
structure IngestConfig where
  slow_threshold : ℚ
  split_char : String
  dns_response_item_occurence_to_return : Int
  exclusion_list : List String
deriving DecidableEq

/-- The per-result-set state `process_request` writes: the `m_*[rsid]`
dictionaries plus the `pm_*` entries this result set contributes (keyed by
`str(rsid) + '-' + str(probe_id)`). -/
structure MeasurementState where
  total_responses : Nat
  total_malformeds : Nat
  total_abuf_malformeds : Nat
  total_errors : Nat
  total_slow : Nat
  total_response_time : ℚ
  response_times : List ℚ
  timestamps : List Int
  seen_probe_ids : List String
  pm_response_time : List (String × ℚ)
  pm_dns_server_substring : List (String × String)
deriving DecidableEq

/-- Lines 621-634: every counter starts at zero and every list empty. -/
def initMeasurementState : MeasurementState :=
  ⟨0, 0, 0, 0, 0, 0, [], [], [], [], []⟩

/-- Lines 711-727: the `try` block extracting
`dns_result.responses[0].abuf.answers[0].data[0]` and splitting it.
`none` means the `try` body performed no assignment into
`pm_dns_server_substring` (the `split_char == '!'` branch assigns only the
local `split_result`); `some s` means the value `s` was stored.  A missing
`abuf` raises `AttributeError` (`'no_data'`); a missing answer or data item,
or a negative split index reaching before the first element, raises
`IndexError` (`'no_reply'`). -/
def extract_dns_substring (split_char : String) (idx : Int) (abuf : Option Abuf) :
    Option String :=
  match abuf with
  | none => some "no_data"
  | some ab =>
    match ab.answers with
    | [] => some "no_reply"
    | ans :: _ =>
      match ans.data with
      | [] => some "no_reply"
      | dns_server_fqdn :: _ =>
        if split_char = "!" then none
        else
          let split_result := pySplit split_char dns_server_fqdn
          if idx < (split_result.length : Int) then
            match pyListIndex split_result idx with
            | some s => some s
            | none => some "no_reply"
          else some dns_server_fqdn

/-- Lines 691-699: `if abuf and abuf.is_malformed: m_total_abuf_malformeds += 1`. -/
def bumpAbufMalformed (abuf : Option Abuf) (st : MeasurementState) : MeasurementState :=
  match abuf with
  | some ab =>
    if ab.is_malformed then
      { st with total_abuf_malformeds := st.total_abuf_malformeds + 1 }
    else st
  | none => st

/-- Lines 696-699: the same abuf-malformation check for `responses[1]`,
guarded by `len(dns_result.responses) > 1`. -/
def bumpSecondAbuf (rest : List SubResponse) (st : MeasurementState) :
    MeasurementState :=
  match rest with
  | [] => st
  | r1 :: _ => bumpAbufMalformed r1.abuf st

/-- Lines 700-707: append the primary response time and the creation
timestamp, add to the running total, count a slow response, and record the
per-probe response time. -/
def appendResponseMetrics (cfg : IngestConfig) (key : String)
    (created_timestamp : Int) (r0 : SubResponse) (st : MeasurementState) :
    MeasurementState :=
  let st3 := { st with
    response_times := st.response_times ++ [r0.response_time],
    total_response_time := st.total_response_time + r0.response_time }
  let st4 :=
    if cfg.slow_threshold < r0.response_time then
      { st3 with total_slow := st3.total_slow + 1 }
    else st3
  { st4 with
    timestamps := st4.timestamps ++ [created_timestamp],
    pm_response_time := (key, r0.response_time) :: st4.pm_response_time }

/-- The outcome of the substring `try` block: store the extracted value (if
any assignment happened) into `pm_dns_server_substring`. -/
def storeSubstring (o : Option String) (key : String) (st : MeasurementState) :
    MeasurementState :=
  match o with
  | some sub =>
    { st with pm_dns_server_substring := (key, sub) :: st.pm_dns_server_substring }
  | none => st

/-- Lines 683-727, the `else` (well-formed) branch body once
`responses = r0 :: rest` is known: abuf-malformation counting for the primary
(and, when present, secondary) sub-response, response-time and timestamp
recording, the slow counter, and the DNS-substring extraction. -/
def recordResponse (cfg : IngestConfig) (key : String) (created_timestamp : Int)
    (r0 : SubResponse) (rest : List SubResponse) (st : MeasurementState) :
    MeasurementState :=
  storeSubstring
    (extract_dns_substring cfg.split_char cfg.dns_response_item_occurence_to_return
      r0.abuf) key
    (appendResponseMetrics cfg key created_timestamp r0
      (bumpSecondAbuf rest (bumpAbufMalformed r0.abuf st)))

/-- One iteration of the `for r in results` loop (lines 646-727): exclusion
filter, probe-id registration, unconditional total-responses increment, then
classification (malformed / error / well-formed).  `none` models the uncaught
`IndexError` the source would raise at line 691 if a well-formed result had an
empty `responses` list. -/
def processResult (cfg : IngestConfig) (rsid : Nat) (st : MeasurementState)
    (r : RawResult) : Option MeasurementState :=
  if cfg.exclusion_list.contains (toString r.probe_id) then some st
  else
    let key := toString rsid ++ "-" ++ toString r.probe_id
    let st1 := { st with
      seen_probe_ids := st.seen_probe_ids ++ [toString r.probe_id],
      total_responses := st.total_responses + 1 }
    if r.is_malformed then
      some { st1 with total_malformeds := st1.total_malformeds + 1 }
    else if r.is_error then
      some { st1 with total_errors := st1.total_errors + 1 }
    else
      match r.responses with
      | [] => none
      | r0 :: rest => some (recordResponse cfg key r.created_timestamp r0 rest st1)

/-- Lines 734-737: after the loop, `m_response_times[rsid].sort()`,
`m_timestamps[rsid].sort()`, `m_seen_probe_ids[rsid].sort()` (the last one
sorts strings in Python's code-point order). -/
def sortMeasurementState (st : MeasurementState) : MeasurementState :=
  { st with
    response_times := st.response_times.insertionSort (· ≤ ·),
    timestamps := st.timestamps.insertionSort (· ≤ ·),
    seen_probe_ids := st.seen_probe_ids.insertionSort pyStrLe }

/-- `process_request` restricted to its aggregation core: fold the per-result
step over the decoded result list, then sort.  (Data-source resolution and the
remote `Measurement` protocol lookup are external I/O collaborators.) -/
def process_request (cfg : IngestConfig) (rsid : Nat) (results : List RawResult) :
    Option MeasurementState :=
  (results.foldlM (processResult cfg rsid) initMeasurementState).map
    sortMeasurementState

/-! ### Set Reconciler (lines 952-987) -/

/-- Lines 957-968: `isdisjoint` check on the two seen-probe-id sets.  The
disjoint case logs both full id sets and calls `exit(14)`, modelled as
`.error` carrying the two sets; otherwise `common_probe_ids` is the
intersection and `uniq_seen_probe_ids` the union. -/
def reconcile_probe_sets (s0 s1 : Finset String) :
    Except (Finset String × Finset String) (Finset String × Finset String) :=
  if s0 ∩ s1 = ∅ then .error (s0, s1) else .ok (s0 ∩ s1, s0 ∪ s1)

/-- The probe rows the report loop (line 1100) would iterate over in the
default (common-probes) mode: `none` when reconciliation already terminated
the process, so no row is ever produced. -/
def comparison_report_rows (s0 s1 : Finset String) : Option (Finset String) :=
  match reconcile_probe_sets s0 s1 with
  | .error _ => none
  | .ok (common, _) => some common

/-! ### Differential Report Renderer (per-row fragments, lines 1100-1200) -/

/-- Line 1119-1120: `float(pm_response_time.setdefault(key, -1))` — a probe
with no `ProbeMetric` entry in a set gets response time `-1`. -/
def pm_rt_value (o : Option ℚ) : ℚ := o.getD (-1)

/-- Line 1143: `pm_dns_server_substring.setdefault(key, 'unknown')`. -/
def pm_substring_value (o : Option String) : String := o.getD "unknown"

/-- Lines 1127-1130: `rt_diff = rt_b - rt_a` only when both are `> 0`,
otherwise `0`. -/
def rt_diff_of (rt_a rt_b : ℚ) : ℚ :=
  if 0 < rt_a ∧ 0 < rt_b then rt_b - rt_a else 0

/-- The `fmt` ANSI escape constants of the source (class `fmt`). -/
def fmt_bold : String := "\x1b[1m"

def fmt_clear : String := "\x1b[0m"

def fmt_bright_green : String := "\x1b[92m"

def fmt_bright_red : String := "\x1b[91m"

def fmt_bright_yellow : String := "\x1b[93m"

def fmt_bright_magenta : String := "\x1b[95m"

/-- The three DNS-substring row fields the format string consumes. -/
structure SitesRender where
  sites_string : String
  sites_fmt_chars : String
  sites_emph_char : String
deriving DecidableEq

/-- Lines 1143-1152 and 1157-1183, restricted to the `sites_*` variables:
equal substrings are displayed once with `fmt.clear`; unequal ones joined as
`A:B` with `fmt.bold + fmt.bright_red` (and `!` under `--emphasis_chars`).
Inside the colored branch the source then re-derives `sites_fmt_chars` from
`sites_string`: the first arm (line 1174) reads
`sites_fmt_chars != fmt.bright_red`, a comparison rather than an assignment,
so on a first-line colon match the earlier value is kept unchanged; the
`unknown` / `no_reply` arms (case-insensitive anchored matches) assign
magenta / yellow; the final arm resets to clear. -/
def sites_cascade (base : SitesRender) : SitesRender :=
  if first_line_has_colon base.sites_string then base
  else if ciStartsWith "unknown".data base.sites_string.data then
    { base with sites_fmt_chars := fmt_bright_magenta }
  else if ciStartsWith "no_reply".data base.sites_string.data then
    { base with sites_fmt_chars := fmt_bright_yellow }
  else { base with sites_fmt_chars := fmt_clear }

def render_sites (no_color emphasis_chars : Bool) (sub_a sub_b : String) :
    SitesRender :=
  let base : SitesRender :=
    if sub_a = sub_b then
      { sites_string := sub_a, sites_fmt_chars := fmt_clear, sites_emph_char := " " }
    else
      { sites_string := sub_a ++ ":" ++ sub_b,
        sites_fmt_chars := fmt_bold ++ fmt_bright_red,
        sites_emph_char := if emphasis_chars then "!" else " " }
  if no_color then { base with sites_fmt_chars := "" }
  else sites_cascade base

/-! ### Probe Property Resolver (`load_probe_properties`, lines 849-897) -/

/-- The per-probe properties record the script builds from a
`ripe.atlas.cousteau.Probe` lookup; each field may be `None` in remote data,
modelled as `Option`. -/
structure ProbeProperties where
  asn_v4 : Option String
  asn_v6 : Option String
  country_code : Option String
  address_v4 : Option String
  address_v6 : Option String
deriving DecidableEq

/-- Lines 887-891: the all-`'-'` record synthesized when a probe is in
neither the cache nor the remote service. -/
def placeholder_probe_properties : ProbeProperties :=
  ⟨some "-", some "-", some "-", some "-", some "-"⟩

/-- One iteration of the `for p in probe_ids` loop (lines 865-892), acting on
the pair (matched_probe_info, all_probes_dict): cache hit copies the cached
record; cache miss queries the remote oracle and on success stores the record
in both dictionaries; on failure only `matched_probe_info[p]` is set, to the
placeholder. -/
def resolveProbeStep (remote : String → Option ProbeProperties)
    (acc : List (String × ProbeProperties) × List (String × ProbeProperties))
    (p : String) :
    List (String × ProbeProperties) × List (String × ProbeProperties) :=
  match dictFind acc.2 p with
  | some v => ((p, v) :: acc.1, acc.2)
  | none =>
    match remote p with
    | some v => ((p, v) :: acc.1, (p, v) :: acc.2)
    | none => ((p, placeholder_probe_properties) :: acc.1, acc.2)

/-- `load_probe_properties(probe_ids, ppcf)` after the cache file has been
read into `all_probes_dict`: returns `(matched_probe_info, all_probes_dict)`,
the second component being what is written back to the JSON cache file. -/
def load_probe_properties (remote : String → Option ProbeProperties)
    (all_probes_dict : List (String × ProbeProperties)) (probe_ids : List String) :
    List (String × ProbeProperties) × List (String × ProbeProperties) :=
  probe_ids.foldl (resolveProbeStep remote) ([], all_probes_dict)

/-! ### Data-source dispatch (lines 430 and 510-553) -/

/-- Line 430 plus lines 510-515: `unixtimes = [0, 0]`, then `unixtimes[0]`
and `unixtimes[1]` are overwritten when `--datetime1` / `--datetime2` were
supplied (already normalized here); index assignment never changes the list
length. -/
def make_unixtimes (dt1 dt2 : Option Int) : List Int :=
  [dt1.getD 0, dt2.getD 0]

/-- Lines 526-553: the dispatch on `len(data_sources)` and `len(unixtimes)`
producing the final `data_sources` list and `last_results_set_id`; the
`exit(3)` branches are modelled as `.error 3`. -/
def select_data_sources (data_sources : List String) (unixtimes : List Int) :
    Except Nat (List String × Nat) :=
  match data_sources with
  | [] => .error 3
  | [s] =>
    if unixtimes.length = 1 then .ok ([s], 0)
    else if unixtimes.length = 2 then .ok ([s, s], 1)
    else .error 3
  | [s, t] => .ok ([s, t], 1)
  | _ => .error 3

/-- The main ingestion loop (lines 906-942): result set ids `0..last` each
paired with the data source they ingest. -/
def ingestion_schedule (data_sources : List String) (last_results_set_id : Nat) :
    List (String × Nat) :=
  (List.range (last_results_set_id + 1)).map (fun i => (data_sources.getD i "", i))

/-! ### Claims -/

/-- C7: `is_valid_unixtime` decides a half-open interval: an integer
candidate is valid exactly when `oldest ≤ e < now`; a value equal to `now`
is rejected, and a value equal to the oldest bound is accepted (whenever the
interval is nonempty). -/
theorem c7_half_open_interval (oldest now e : Int) :
    (is_valid_unixtime oldest now (.int e) = true ↔ oldest ≤ e ∧ e < now) ∧
    is_valid_unixtime oldest now (.int now) = false ∧
    (oldest < now → is_valid_unixtime oldest now (.int oldest) = true) := by
  refine ⟨?_, ?_, fun h => ?_⟩
  · simp [is_valid_unixtime, and_comm]
  · simp [is_valid_unixtime]
  · simp [is_valid_unixtime, h]

/-- Witness for C7 at `oldest = 100`, `now = 200`: the lower bound is
accepted, the upper bound rejected. -/
theorem c7_half_open_interval_witness :
    is_valid_unixtime 100 200 (.int 100) = true ∧
    is_valid_unixtime 100 200 (.int 200) = false :=
  ⟨(c7_half_open_interval 100 200 100).2.2 (by decide),
   (c7_half_open_interval 100 200 150).2.1⟩

/-- C5: `rt_diff` is `rt_b - rt_a` exactly when both response times are
strictly positive and `0` otherwise; a probe with no `ProbeMetric` entry in a
set resolves to response time `-1` and substring `"unknown"`, and a probe
present in set 0 but absent in set 1 therefore gets `rt_diff = 0`. -/
theorem c5_rt_diff_guard (rt_a rt_b : ℚ) :
    (0 < rt_a → 0 < rt_b → rt_diff_of rt_a rt_b = rt_b - rt_a) ∧
    (¬(0 < rt_a ∧ 0 < rt_b) → rt_diff_of rt_a rt_b = 0) ∧
    pm_rt_value none = -1 ∧
    pm_substring_value none = "unknown" ∧
    rt_diff_of rt_a (pm_rt_value none) = 0 := by
  refine ⟨fun ha hb => ?_, fun h => ?_, rfl, rfl, ?_⟩
  · simp [rt_diff_of, ha, hb]
  · simp [rt_diff_of, h]
  · norm_num [rt_diff_of, pm_rt_value]

/-- Witness for C5: response times 30 and 42 give diff 12; 30 against a
missing entry gives diff 0. -/
theorem c5_rt_diff_guard_witness :
    rt_diff_of 30 42 = 12 ∧ rt_diff_of 30 (pm_rt_value none) = 0 :=
  ⟨by rw [(c5_rt_diff_guard 30 42).1 (by norm_num) (by norm_num)]; norm_num,
   (c5_rt_diff_guard 30 42).2.2.2.2⟩

/-- C4: two measurement sets with disjoint seen-probe-id sets make
reconciliation fail with the no-common-probes fatal condition, carrying both
id sets, and no comparison report rows are produced; with a nonempty
intersection both the intersection and the union are exposed. -/
theorem c4_reconciliation (s0 s1 : Finset String) :
    (s0 ∩ s1 = ∅ →
      reconcile_probe_sets s0 s1 = .error (s0, s1) ∧
      comparison_report_rows s0 s1 = none) ∧
    (s0 ∩ s1 ≠ ∅ →
      reconcile_probe_sets s0 s1 = .ok (s0 ∩ s1, s0 ∪ s1) ∧
      comparison_report_rows s0 s1 = some (s0 ∩ s1)) := by
  constructor
  · intro h
    constructor <;> simp [reconcile_probe_sets, comparison_report_rows, h]
  · intro h
    constructor <;> simp [reconcile_probe_sets, comparison_report_rows, h]

/-- Witness for C4: disjoint singletons fail, overlapping sets expose
intersection and union. -/
theorem c4_reconciliation_witness :
    reconcile_probe_sets {"1001"} {"2002"} = .error ({"1001"}, {"2002"}) ∧
    comparison_report_rows {"1001"} {"2002"} = none ∧
    reconcile_probe_sets {"1001", "2002"} {"2002"} =
      .ok ({"1001", "2002"} ∩ {"2002"}, {"1001", "2002"} ∪ {"2002"}) :=
  ⟨((c4_reconciliation {"1001"} {"2002"}).1 (by decide)).1,
   ((c4_reconciliation {"1001"} {"2002"}).1 (by decide)).2,
   ((c4_reconciliation {"1001", "2002"} {"2002"}).2 (by decide)).1⟩

/-- C10: `unixtimes` always has length 2, so a single data source is always
duplicated and ingested as result sets 0 and 1 (a self-comparison, even with
no date-times given), and no successful dispatch ever yields
`last_results_set_id = 0`. -/
theorem c10_single_source_duplicated (dt1 dt2 : Option Int) (s : String) :
    select_data_sources [s] (make_unixtimes dt1 dt2) = .ok ([s, s], 1) ∧
    ingestion_schedule [s, s] 1 = [(s, 0), (s, 1)] ∧
    (∀ ds res, select_data_sources ds (make_unixtimes dt1 dt2) = .ok res →
      res.2 ≠ 0) := by
  refine ⟨rfl, rfl, ?_⟩
  intro ds res h
  rcases ds with _ | ⟨a, _ | ⟨b, _ | ⟨c, rest⟩⟩⟩
  · simp [select_data_sources] at h
  · simp only [select_data_sources, make_unixtimes] at h
    norm_num at h
    subst h
    simp
  · simp only [select_data_sources, Except.ok.injEq] at h
    subst h
    simp
  · simp [select_data_sources] at h

/-- Witness for C10: one source, no date-times. -/
theorem c10_single_source_duplicated_witness :
    select_data_sources ["12016241"] (make_unixtimes none none) =
      .ok (["12016241", "12016241"], 1) ∧
    ingestion_schedule ["12016241", "12016241"] 1 =
      [("12016241", 0), ("12016241", 1)] ∧
    ((["12016241", "12016241"], 1) : List String × Nat).2 ≠ 0 :=
  ⟨(c10_single_source_duplicated none none "12016241").1,
   (c10_single_source_duplicated none none "12016241").2.1,
   (c10_single_source_duplicated none none "12016241").2.2 ["12016241"] _
     (c10_single_source_duplicated none none "12016241").1⟩

/-- C2 (claim refuted by the source; the code contradicts its own help text):
the integer fast path of the time normalizer is dead for command-line input.
`is_valid_unixtime` first requires `isinstance(x, int)` and the supplied
date-time is always a `str`, so `normalize(str(e))` never returns through the
fast path; with bounds oldest = 1262332800 and now = 1700000000 the integer
1600000000 is a valid epoch, yet its decimal string is rejected by the fast
path, matches none of the accepted date-time formats, and the call reaches
`exit(2)` — whatever `mktime` would compute. -/
theorem c2_fast_path_dead (mktime : StrptimeFields → Int) (s : String) :
    is_valid_unixtime 1262332800 1700000000 (.str s) = false ∧
    is_valid_unixtime 1262332800 1700000000 (.int 1600000000) = true ∧
    user_datetime_to_valid_unixtime 1262332800 1700000000 mktime "1600000000" =
      .error () :=
  ⟨rfl, by decide, rfl⟩

/-- C3 counterexample: with the delimiter `'!'` the `try` body only assigns
the local `split_result` and never stores anything in
`pm_dns_server_substring`, so the stored value is not the whole unsplit first
data item as the claim states. -/
theorem c3_bang_delimiter_counterexample :
    extract_dns_substring "!" 1 (some ⟨false, [⟨["ns1.example.net"]⟩]⟩) = none ∧
    extract_dns_substring "!" 1 (some ⟨false, [⟨["ns1.example.net"]⟩]⟩) ≠
      some "ns1.example.net" := by
  constructor
  · rfl
  · decide

/-- C3 (amended): when the delimiter is the literal `'!'` no substring is
stored at all (the entry is left unset); otherwise the element at the
configured split index is stored when the index is within range, and the
whole unsplit string when the index is at least the number of parts;
`"no_reply"` is stored when no answer or data item exists, `"no_data"` when
the answer buffer is absent. -/
theorem c3_extract_rule (split_char : String) (idx : Int) (bm : Bool)
    (fqdn : String) (drest : List String) (arest : List DnsAnswer) :
    (split_char = "!" →
      extract_dns_substring split_char idx
        (some ⟨bm, ⟨fqdn :: drest⟩ :: arest⟩) = none) ∧
    (split_char ≠ "!" → 0 ≤ idx →
      ∀ s, (pySplit split_char fqdn).get? idx.toNat = some s →
        extract_dns_substring split_char idx
          (some ⟨bm, ⟨fqdn :: drest⟩ :: arest⟩) = some s) ∧
    (split_char ≠ "!" → ((pySplit split_char fqdn).length : Int) ≤ idx →
      extract_dns_substring split_char idx
        (some ⟨bm, ⟨fqdn :: drest⟩ :: arest⟩) = some fqdn) ∧
    extract_dns_substring split_char idx none = some "no_data" ∧
    extract_dns_substring split_char idx (some ⟨bm, []⟩) = some "no_reply" ∧
    extract_dns_substring split_char idx (some ⟨bm, ⟨[]⟩ :: arest⟩) =
      some "no_reply" := by
  refine ⟨fun h => ?_, fun h h0 s hs => ?_, fun h hle => ?_, rfl, rfl, rfl⟩
  · simp [extract_dns_substring, h]
  · have hlt : idx.toNat < (pySplit split_char fqdn).length :=
      (List.get?_eq_some.mp hs).1
    have hlt' : idx < ((pySplit split_char fqdn).length : Int) := by omega
    simp [extract_dns_substring, h, hlt', pyListIndex, h0]
    simpa using (List.get?_eq_some.mp hs).2
  · have hnlt : ¬ idx < ((pySplit split_char fqdn).length : Int) := by omega
    simp [extract_dns_substring, h, hnlt]

/-- Witness for C3 at concrete inputs: delimiter `'!'` stores nothing;
delimiter `'.'` with index 1 on `"a.b.c"` stores `"b"`; index 7 falls back to
the whole string. -/
theorem c3_extract_rule_witness :
    extract_dns_substring "!" 0 (some ⟨false, [⟨["a.b.c"]⟩]⟩) = none ∧
    extract_dns_substring "." 1 (some ⟨false, [⟨["a.b.c"]⟩]⟩) = some "b" ∧
    extract_dns_substring "." 7 (some ⟨false, [⟨["a.b.c"]⟩]⟩) = some "a.b.c" :=
  ⟨(c3_extract_rule "!" 0 false "a.b.c" [] []).1 rfl,
   (c3_extract_rule "." 1 false "a.b.c" [] []).2.1 (by decide) (by decide) "b"
     (by decide),
   (c3_extract_rule "." 7 false "a.b.c" [] []).2.2.1 (by decide) (by decide)⟩

/-- The Python string order is total. -/
theorem lexLe_total : ∀ as bs : List Char, lexLe as bs = true ∨ lexLe bs as = true := by
  intro as
  induction as with
  | nil => intro bs; left; rfl
  | cons a as ih =>
    intro bs
    cases bs with
    | nil => right; rfl
    | cons b bs =>
      by_cases h : a = b
      · subst h
        rcases ih bs with h2 | h2
        · left; simpa [lexLe] using h2
        · right; simpa [lexLe] using h2
      · rcases lt_or_gt_of_ne h with hlt | hgt
        · left; simp [lexLe, h, hlt]
        · right; simp [lexLe, Ne.symm h, hgt]

/-- The Python string order is transitive. -/
theorem lexLe_trans : ∀ as bs cs : List Char,
    lexLe as bs = true → lexLe bs cs = true → lexLe as cs = true := by
  intro as
  induction as with
  | nil => intro bs cs _ _; rfl
  | cons a as ih =>
    intro bs cs h1 h2
    cases bs with
    | nil => simp [lexLe] at h1
    | cons b bs =>
      cases cs with
      | nil => simp [lexLe] at h2
      | cons c cs =>
        by_cases hab : a = b
        · subst hab
          by_cases hac : a = c
          · subst hac
            simp only [lexLe, if_pos rfl] at h1 h2 ⊢
            exact ih bs cs h1 h2
          · simpa [lexLe, hac] using h2
        · have hab' : a < b := by
            have := h1
            simp only [lexLe, if_neg hab, decide_eq_true_eq] at this
            exact this
          by_cases hbc : b = c
          · subst hbc
            simpa [lexLe, hab] using h1
          · have hbc' : b < c := by
              have := h2
              simp only [lexLe, if_neg hbc, decide_eq_true_eq] at this
              exact this
            have hac' : a < c := lt_trans hab' hbc'
            simp [lexLe, ne_of_lt hac', hac']

instance : IsTotal String pyStrLe :=
  ⟨fun a b => lexLe_total a.data b.data⟩

instance : IsTrans String pyStrLe :=
  ⟨fun a b c => lexLe_trans a.data b.data c.data⟩

/-- The three classification counters of C1 bundled, so that each ingestion
helper can be shown not to touch them. -/
def coreCounters (st : MeasurementState) : Nat × Nat × Nat :=
  (st.total_responses, st.total_malformeds, st.total_errors)

/-- A record counts toward the aggregate exactly when its probe id is not on
the exclusion list (lines 658-659). -/
def counted (cfg : IngestConfig) (r : RawResult) : Bool :=
  !(cfg.exclusion_list.contains (toString r.probe_id))

theorem coreCounters_bumpAbufMalformed (ab : Option Abuf) (st : MeasurementState) :
    coreCounters (bumpAbufMalformed ab st) = coreCounters st := by
  rcases ab with _ | a
  · rfl
  · simp only [bumpAbufMalformed]
    split <;> rfl

theorem coreCounters_bumpSecondAbuf (rest : List SubResponse)
    (st : MeasurementState) :
    coreCounters (bumpSecondAbuf rest st) = coreCounters st := by
  rcases rest with _ | ⟨r1, rtl⟩
  · rfl
  · simpa [bumpSecondAbuf] using coreCounters_bumpAbufMalformed r1.abuf st

theorem coreCounters_appendResponseMetrics (cfg : IngestConfig) (key : String)
    (ts : Int) (r0 : SubResponse) (st : MeasurementState) :
    coreCounters (appendResponseMetrics cfg key ts r0 st) = coreCounters st := by
  simp only [appendResponseMetrics]
  split <;> rfl

theorem coreCounters_storeSubstring (o : Option String) (key : String)
    (st : MeasurementState) :
    coreCounters (storeSubstring o key st) = coreCounters st := by
  rcases o with _ | s <;> rfl

theorem coreCounters_recordResponse (cfg : IngestConfig) (key : String)
    (ts : Int) (r0 : SubResponse) (rest : List SubResponse)
    (st : MeasurementState) :
    coreCounters (recordResponse cfg key ts r0 rest st) = coreCounters st := by
  simp [recordResponse, coreCounters_storeSubstring,
    coreCounters_appendResponseMetrics, coreCounters_bumpSecondAbuf,
    coreCounters_bumpAbufMalformed]

/-- Effect of one loop iteration on the three classification counters:
total-responses counts every non-excluded record, malformeds the non-excluded
malformed ones, errors the non-excluded non-malformed error ones. -/
theorem coreCounters_processResult (cfg : IngestConfig) (rsid : Nat)
    (st st' : MeasurementState) (r : RawResult)
    (h : processResult cfg rsid st r = some st') :
    st'.total_responses =
      st.total_responses + (if counted cfg r then 1 else 0) ∧
    st'.total_malformeds =
      st.total_malformeds + (if counted cfg r && r.is_malformed then 1 else 0) ∧
    st'.total_errors =
      st.total_errors +
        (if counted cfg r && !r.is_malformed && r.is_error then 1 else 0) := by
  unfold processResult at h
  by_cases hex : cfg.exclusion_list.contains (toString r.probe_id)
  · have hct : counted cfg r = false := by unfold counted; rw [hex]; rfl
    rw [if_pos hex] at h
    have hst := Option.some.inj h
    subst hst
    simp [hct]
  · have hct : counted cfg r = true := by
      unfold counted
      rw [Bool.not_eq_true] at hex
      rw [hex]
      rfl
    rw [if_neg hex] at h
    by_cases hm : r.is_malformed
    · simp only [hm, if_true] at h
      have hst := Option.some.inj h
      subst hst
      simp [hct, hm]
    · rw [Bool.not_eq_true] at hm
      by_cases he : r.is_error
      · simp only [hm, Bool.false_eq_true, if_false, he, if_true] at h
        have hst := Option.some.inj h
        subst hst
        simp [hct, hm, he]
      · rw [Bool.not_eq_true] at he
        simp only [hm, he, Bool.false_eq_true, if_false] at h
        rcases hresp : r.responses with _ | ⟨r0, rest⟩
        · rw [hresp] at h
          simp at h
        · rw [hresp] at h
          have hst := Option.some.inj h
          subst hst
          have hc := coreCounters_recordResponse cfg
            (toString rsid ++ "-" ++ toString r.probe_id) r.created_timestamp r0 rest
            { st with
              seen_probe_ids := st.seen_probe_ids ++ [toString r.probe_id],
              total_responses := st.total_responses + 1 }
          simp only [coreCounters, Prod.mk.injEq] at hc
          simp [hct, hm, he, hc.1, hc.2.1, hc.2.2]

/-- Folding the ingestion step over a result list accumulates the three
classification counters as counts over the list. -/
theorem coreCounters_foldIngest (cfg : IngestConfig) (rsid : Nat) :
    ∀ (results : List RawResult) (st0 st : MeasurementState),
      List.foldlM (processResult cfg rsid) st0 results = some st →
      st.total_responses = st0.total_responses + results.countP (counted cfg) ∧
      st.total_malformeds = st0.total_malformeds +
        results.countP (fun r => counted cfg r && r.is_malformed) ∧
      st.total_errors = st0.total_errors +
        results.countP (fun r => counted cfg r && !r.is_malformed && r.is_error) := by
  intro results
  induction results with
  | nil =>
    intro st0 st h
    simp only [List.foldlM_nil] at h
    have hst := Option.some.inj (by exact h)
    subst hst
    simp
  | cons r rs ih =>
    intro st0 st h
    rw [List.foldlM_cons] at h
    obtain ⟨st1, h1, h2⟩ := Option.bind_eq_some.mp h
    obtain ⟨hc1, hc2, hc3⟩ := coreCounters_processResult cfg rsid st0 st1 r h1
    obtain ⟨hr1, hr2, hr3⟩ := ih st1 st h2
    refine ⟨?_, ?_, ?_⟩ <;>
      simp only [List.countP_cons, hr1, hr2, hr3, hc1, hc2, hc3] <;> omega

/-- C1 counterexample: ingesting a list of exactly one malformed, one error,
and one well-formed record yields `total = 3` (the total-responses counter is
incremented before the malformed/error classification, line 676), not the
claimed `total = 1`. -/
theorem c1_total_counterexample :
    (process_request ⟨50, ".", 1, []⟩ 0
        [⟨101, 99, 1111, true, false, []⟩,
         ⟨102, 99, 1112, false, true, []⟩,
         ⟨103, 99, 1113, false, false, [⟨30, some ⟨false, [⟨["a.b.c"]⟩]⟩⟩]⟩]).map
      (fun st => (st.total_responses, st.total_malformeds, st.total_errors)) =
      some (3, 1, 1) ∧
    (process_request ⟨50, ".", 1, []⟩ 0
        [⟨101, 99, 1111, true, false, []⟩,
         ⟨102, 99, 1112, false, true, []⟩,
         ⟨103, 99, 1113, false, false, [⟨30, some ⟨false, [⟨["a.b.c"]⟩]⟩⟩]⟩]).map
      (fun st => (st.total_responses, st.total_malformeds, st.total_errors)) ≠
      some (1, 1, 1) := by
  constructor
  · rfl
  · decide

/-- C1 (amended): after a successful ingestion the total-responses counter
equals the number of non-excluded records (malformed and error records
included), the malformed counter the number of non-excluded malformed
records, and the error counter the number of non-excluded records that are
not malformed but flagged as errors; in particular one malformed, one error
and one well-formed record yield `total = 3, malformed = 1, errors = 1`. -/
theorem c1_classification_counters (cfg : IngestConfig) (rsid : Nat)
    (results : List RawResult) (st : MeasurementState)
    (h : process_request cfg rsid results = some st) :
    st.total_responses = results.countP (counted cfg) ∧
    st.total_malformeds = results.countP (fun r => counted cfg r && r.is_malformed) ∧
    st.total_errors =
      results.countP (fun r => counted cfg r && !r.is_malformed && r.is_error) := by
  unfold process_request at h
  obtain ⟨st0, h1, h2⟩ := Option.map_eq_some'.mp h
  obtain ⟨ht, hm, he⟩ :=
    coreCounters_foldIngest cfg rsid results initMeasurementState st0 h1
  subst h2
  exact ⟨by simpa [sortMeasurementState, initMeasurementState] using ht,
    by simpa [sortMeasurementState, initMeasurementState] using hm,
    by simpa [sortMeasurementState, initMeasurementState] using he⟩

/-- Witness for C1 (amended) at the one-malformed/one-error/one-well-formed
input: the counts evaluate to 3, 1 and 1. -/
theorem c1_classification_counters_witness :
    (3 : Nat) =
      List.countP (counted ⟨50, ".", 1, []⟩)
        [⟨101, 99, 1111, true, false, []⟩,
         ⟨102, 99, 1112, false, true, []⟩,
         ⟨103, 99, 1113, false, false, [⟨30, some ⟨false, [⟨["a.b.c"]⟩]⟩⟩]⟩] ∧
    (1 : Nat) =
      List.countP (fun r => counted ⟨50, ".", 1, []⟩ r && r.is_malformed)
        [⟨101, 99, 1111, true, false, []⟩,
         ⟨102, 99, 1112, false, true, []⟩,
         ⟨103, 99, 1113, false, false, [⟨30, some ⟨false, [⟨["a.b.c"]⟩]⟩⟩]⟩] ∧
    (1 : Nat) =
      List.countP (fun r => counted ⟨50, ".", 1, []⟩ r && !r.is_malformed && r.is_error)
        [⟨101, 99, 1111, true, false, []⟩,
         ⟨102, 99, 1112, false, true, []⟩,
         ⟨103, 99, 1113, false, false, [⟨30, some ⟨false, [⟨["a.b.c"]⟩]⟩⟩]⟩] :=
  c1_classification_counters ⟨50, ".", 1, []⟩ 0
    [⟨101, 99, 1111, true, false, []⟩,
     ⟨102, 99, 1112, false, true, []⟩,
     ⟨103, 99, 1113, false, false, [⟨30, some ⟨false, [⟨["a.b.c"]⟩]⟩⟩]⟩]
    ⟨3, 1, 0, 1, 0, 0 + 30, [30], [1113], ["101", "102", "103"],
      [("0-103", 30)], [("0-103", "b")]⟩
    rfl

/-- C6: whatever the input order of the result list, a successful ingestion
leaves the response-time list, the timestamp list, and the seen-probe-id list
sorted in non-decreasing order (the id list in Python's string order). -/
theorem c6_sorted_after_ingestion (cfg : IngestConfig) (rsid : Nat)
    (results : List RawResult) (st : MeasurementState)
    (h : process_request cfg rsid results = some st) :
    List.Sorted (· ≤ ·) st.response_times ∧
    List.Sorted (· ≤ ·) st.timestamps ∧
    List.Sorted pyStrLe st.seen_probe_ids := by
  unfold process_request at h
  obtain ⟨st0, h1, h2⟩ := Option.map_eq_some'.mp h
  subst h2
  exact ⟨List.sorted_insertionSort _ _, List.sorted_insertionSort _ _,
    List.sorted_insertionSort _ _⟩

/-- Witness for C6: a three-record ingestion (ids arriving as 103, 101, 102)
ends with all three lists sorted. -/
theorem c6_sorted_after_ingestion_witness :
    List.Sorted (· ≤ ·) ([30] : List ℚ) ∧
    List.Sorted (· ≤ ·) ([1113] : List Int) ∧
    List.Sorted pyStrLe ["101", "102", "103"] :=
  c6_sorted_after_ingestion ⟨50, ".", 1, []⟩ 0
    [⟨103, 99, 1113, false, false, [⟨30, some ⟨false, [⟨["a.b.c"]⟩]⟩⟩]⟩,
     ⟨101, 99, 1111, true, false, []⟩,
     ⟨102, 99, 1112, false, true, []⟩]
    ⟨3, 1, 0, 1, 0, 0 + 30, [30], [1113], ["101", "102", "103"],
      [("0-103", 30)], [("0-103", "b")]⟩
    rfl

/-- C8 counterexample: a rendered row with color enabled and unequal
substrings whose joined form hides the colon behind a newline gets
`fmt.clear`, not the red difference highlight: `re.match(r'.*:.*', ...)`
only inspects the first line, and the final cascade arm resets the earlier
bold-red value to clear. -/
theorem c8_newline_counterexample :
    "x\ny" ≠ "z" ∧
    (render_sites false false "x\ny" "z").sites_string = "x\ny:z" ∧
    (render_sites false false "x\ny" "z").sites_fmt_chars = fmt_clear ∧
    (render_sites false false "x\ny" "z").sites_fmt_chars ≠
      fmt_bold ++ fmt_bright_red := by
  refine ⟨by decide, rfl, by decide, by decide⟩

/-- C8 (amended): with color enabled, equal substrings are displayed once and
never carry the red difference highlight; unequal substrings are displayed
joined as `A:B` (with the trailing `!` marker when emphasis characters are
enabled), and the red difference highlight is applied whenever the first line
of the joined string contains the colon — in particular always when the first
substring contains no newline.  (The comparison-instead-of-assignment on the
source's colon arm is behaviourally a no-op: the bold-red value set when the
strings differed is simply kept.) -/
theorem sites_cascade_string (base : SitesRender) :
    (sites_cascade base).sites_string = base.sites_string := by
  unfold sites_cascade
  split_ifs <;> rfl

theorem sites_cascade_emph (base : SitesRender) :
    (sites_cascade base).sites_emph_char = base.sites_emph_char := by
  unfold sites_cascade
  split_ifs <;> rfl

theorem sites_cascade_fmt_mem (base : SitesRender) :
    (sites_cascade base).sites_fmt_chars = base.sites_fmt_chars ∨
    (sites_cascade base).sites_fmt_chars = fmt_bright_magenta ∨
    (sites_cascade base).sites_fmt_chars = fmt_bright_yellow ∨
    (sites_cascade base).sites_fmt_chars = fmt_clear := by
  unfold sites_cascade
  split_ifs <;> simp

theorem sites_cascade_fmt_colon (base : SitesRender)
    (h : first_line_has_colon base.sites_string = true) :
    (sites_cascade base).sites_fmt_chars = base.sites_fmt_chars := by
  unfold sites_cascade
  rw [if_pos h]

theorem fmt_clear_ne_diff : fmt_clear ≠ fmt_bold ++ fmt_bright_red := by decide

theorem fmt_magenta_ne_diff : fmt_bright_magenta ≠ fmt_bold ++ fmt_bright_red := by
  decide

theorem fmt_yellow_ne_diff : fmt_bright_yellow ≠ fmt_bold ++ fmt_bright_red := by
  decide

theorem c8_sites_highlight (emphasis_chars : Bool) (sub_a sub_b : String) :
    (sub_a = sub_b →
      (render_sites false emphasis_chars sub_a sub_b).sites_string = sub_a ∧
      (render_sites false emphasis_chars sub_a sub_b).sites_fmt_chars ≠
        fmt_bold ++ fmt_bright_red) ∧
    (sub_a ≠ sub_b →
      (render_sites false emphasis_chars sub_a sub_b).sites_string =
        sub_a ++ ":" ++ sub_b ∧
      (render_sites false emphasis_chars sub_a sub_b).sites_emph_char =
        (if emphasis_chars then "!" else " ") ∧
      (first_line_has_colon (sub_a ++ ":" ++ sub_b) = true →
        (render_sites false emphasis_chars sub_a sub_b).sites_fmt_chars =
          fmt_bold ++ fmt_bright_red)) := by
  constructor
  · intro h
    subst h
    have hb : render_sites false emphasis_chars sub_a sub_a =
        sites_cascade ⟨sub_a, fmt_clear, " "⟩ := by
      simp [render_sites]
    constructor
    · rw [hb, sites_cascade_string]
    · rw [hb]
      rcases sites_cascade_fmt_mem ⟨sub_a, fmt_clear, " "⟩ with h1 | h1 | h1 | h1 <;>
        rw [h1] <;>
        first
          | exact fmt_clear_ne_diff
          | exact fmt_magenta_ne_diff
          | exact fmt_yellow_ne_diff
  · intro h
    have hb : render_sites false emphasis_chars sub_a sub_b =
        sites_cascade ⟨sub_a ++ ":" ++ sub_b, fmt_bold ++ fmt_bright_red,
          if emphasis_chars then "!" else " "⟩ := by
      simp [render_sites, h]
    refine ⟨?_, ?_, fun hc => ?_⟩
    · rw [hb, sites_cascade_string]
    · rw [hb, sites_cascade_emph]
    · rw [hb, sites_cascade_fmt_colon _ hc]

/-- Witness for C8 on newline-free substrings: equal substrings display once
without the red highlight; unequal ones display `A:B`, bold red, with the
`!` marker. -/
theorem c8_sites_highlight_witness :
    (render_sites false true "site-a" "site-a").sites_string = "site-a" ∧
    (render_sites false true "site-a" "site-a").sites_fmt_chars ≠
      fmt_bold ++ fmt_bright_red ∧
    (render_sites false true "site-a" "site-b").sites_string = "site-a:site-b" ∧
    (render_sites false true "site-a" "site-b").sites_emph_char = "!" ∧
    (render_sites false true "site-a" "site-b").sites_fmt_chars =
      fmt_bold ++ fmt_bright_red :=
  ⟨((c8_sites_highlight true "site-a" "site-a").1 rfl).1,
   ((c8_sites_highlight true "site-a" "site-a").1 rfl).2,
   ((c8_sites_highlight true "site-a" "site-b").2 (by decide)).1,
   ((c8_sites_highlight true "site-a" "site-b").2 (by decide)).2.1,
   ((c8_sites_highlight true "site-a" "site-b").2 (by decide)).2.2 (by decide)⟩

/-- Every loop iteration of `load_probe_properties` prepends an entry for the
processed probe id to `matched_probe_info`, whichever of the three branches
(cache hit, remote hit, placeholder) runs. -/
theorem resolveProbeStep_head (remote : String → Option ProbeProperties)
    (acc : List (String × ProbeProperties) × List (String × ProbeProperties))
    (p : String) :
    ∃ v, (resolveProbeStep remote acc p).1 = (p, v) :: acc.1 := by
  unfold resolveProbeStep
  rcases hd : dictFind acc.2 p with _ | v
  · rcases hr : remote p with _ | w
    · exact ⟨_, rfl⟩
    · exact ⟨_, rfl⟩
  · exact ⟨_, rfl⟩

/-- The result map of `load_probe_properties` has an entry for every
requested probe id (and keeps any entry it already had). -/
theorem load_probe_properties_covers (remote : String → Option ProbeProperties) :
    ∀ (probe_ids : List String)
      (acc : List (String × ProbeProperties) × List (String × ProbeProperties))
      (p : String),
      p ∈ probe_ids ∨ (dictFind acc.1 p).isSome = true →
      (dictFind (probe_ids.foldl (resolveProbeStep remote) acc).1 p).isSome = true := by
  intro probe_ids
  induction probe_ids with
  | nil =>
    intro acc p h
    rcases h with h | h
    · simp at h
    · simpa using h
  | cons q ids ih =>
    intro acc p h
    rw [List.foldl_cons]
    apply ih
    obtain ⟨v, hv⟩ := resolveProbeStep_head remote acc q
    rcases h with h | h
    · rcases List.mem_cons.mp h with rfl | h2
      · right
        rw [hv]
        simp [dictFind]
      · left
        exact h2
    · right
      rw [hv]
      by_cases hpq : p = q <;> simp [dictFind, hpq, h]

/-- C9: probe-property resolution is total and never crashes: every requested
id gets an entry in the returned map; a cache hit is used directly (cache
unchanged), a cache miss with a successful remote lookup is merged into both
the result and the cache, and a miss in both sources yields the placeholder
record with every field set to the `'-'` marker. -/
theorem c9_resolver_contract (remote : String → Option ProbeProperties)
    (cache : List (String × ProbeProperties)) (probe_ids : List String)
    (p : String) (v w : ProbeProperties) :
    (p ∈ probe_ids →
      (dictFind (load_probe_properties remote cache probe_ids).1 p).isSome = true) ∧
    (dictFind cache p = some v →
      load_probe_properties remote cache [p] = ([(p, v)], cache)) ∧
    (dictFind cache p = none → remote p = some w →
      load_probe_properties remote cache [p] = ([(p, w)], (p, w) :: cache)) ∧
    (dictFind cache p = none → remote p = none →
      load_probe_properties remote cache [p] =
        ([(p, placeholder_probe_properties)], cache)) := by
  refine ⟨fun h => load_probe_properties_covers remote probe_ids ([], cache) p
      (Or.inl h),
    fun h => ?_, fun h hr => ?_, fun h hr => ?_⟩
  · simp [load_probe_properties, resolveProbeStep, h]
  · simp [load_probe_properties, resolveProbeStep, h, hr]
  · simp [load_probe_properties, resolveProbeStep, h, hr]

/-- Witness for C9: an id in neither the cache nor the remote source resolves
to the all-placeholder record, and the result map contains its key. -/
theorem c9_resolver_contract_witness :
    load_probe_properties (fun _ => none) [] ["9999"] =
      ([("9999", placeholder_probe_properties)], []) ∧
    (dictFind (load_probe_properties (fun _ => none) [] ["9999"]).1
      "9999").isSome = true :=
  ⟨(c9_resolver_contract (fun _ => none) [] ["9999"] "9999"
      placeholder_probe_properties placeholder_probe_properties).2.2.2 rfl rfl,
   (c9_resolver_contract (fun _ => none) [] ["9999"] "9999"
      placeholder_probe_properties placeholder_probe_properties).1 (by simp)⟩

end RaDns
